import Mathlib

/-!
Shallow embedding of `src/TelebotUrEdu.py`, a webhook-driven Telegram bot
that searches a Blogger blog's posts by label (exact match first, fuzzy
fallback) and pushes results back to the chat.

Modelling conventions:
* Remote HTTP interactions (`requests.get` / `requests.post`) are an
  explicit environment `Env`: each call either fails at transport level
  (`Except.error`, standing for `requests.exceptions.RequestException`,
  which includes timeouts) or yields the parsed JSON payload.
* A Blogger response body is a record with the optional `"error"` and
  `"items"` fields that the code inspects; a post ("ContentItem") carries
  `title`, `url` and `labels` (an absent `"labels"` key is the empty list,
  matching `post.get("labels", [])`).
* `difflib.get_close_matches` is modelled with its similarity score
  (`SequenceMatcher.ratio`, a rational in `[0,1]`) abstracted as a
  parameter `Env.score`; the stdlib routine filters the possibilities by
  `cutoff ≤ ratio` (its two quick-ratio pre-checks are upper bounds of
  `ratio`, hence redundant for the filter), sorts the survivors by
  descending score, and keeps the first `n`.
* Python's `str.lower` / `str.strip` become character-list maps
  (`Char.toLower` per character, whitespace stripped from both ends),
  `"needle" in hay` becomes infix-of-character-lists, and
  the dict comprehension `{post['url']: post for post in ...}` becomes a
  left fold that inserts with first-key-order / last-value-wins semantics,
  exactly Python's dict insertion behaviour.
* The Flask handler returns `(body, code)` and its outbound
  `send_to_telegram` calls are collected (in call order) in
  `HandlerOut.sent`; an uncaught Python exception inside the `try:` block
  is an `Except.error` that the top-level `except Exception` converts to
  the 500 response.
-/

/-- A Blogger post as consumed by the bot: `title`, `url`, `labels`. -/
structure Post where
  title : String
  url : String
  labels : List String
deriving DecidableEq, Repr

/-- The `"error"` object of a Blogger response; the code reads its
optional `"message"` field. -/
structure BloggerError where
  message : Option String
deriving DecidableEq, Repr

/-- A parsed Blogger API response body: the two fields the code looks at,
each possibly absent. -/
structure BloggerResp where
  error : Option BloggerError
  items : Option (List Post)
deriving DecidableEq, Repr

/-- Outcome of the outbound Telegram `sendMessage` POST: transport failure
(a `RequestException`) or an HTTP status code. -/
inductive TgResult where
  | transportErr (e : String)
  | status (code : Nat)
deriving DecidableEq, Repr

/-- The remote world: Blogger responses (per-keyword for the
label-filtered query, one unfiltered collection), the Telegram send
endpoint, and the similarity score used by `difflib.get_close_matches`. -/
structure Env where
  score : String → String → ℚ
  exact : String → Except String BloggerResp
  allPosts : Except String BloggerResp
  telegram : Int → String → TgResult

/-- `send_to_telegram(chat_id, text)`: POSTs the message; `raise_for_status`
raises (only) for status codes in `[400, 600)`; any `RequestException` is
caught, logged and turned into `False`; otherwise `True`. -/
def send_to_telegram (env : Env) (chat_id : Int) (text : String) : Bool :=
  match env.telegram chat_id text with
  | .transportErr _ => false
  | .status code => if 400 ≤ code ∧ code < 600 then false else true

/-- Python's `needle in hay` on strings: contiguous substring test. -/
def pySubstr (needle hay : String) : Bool :=
  decide (needle.toList <:+: hay.toList)

/-- Python's `str.lower()`: lower-case every character. -/
def pyLower (s : String) : String := ⟨s.data.map Char.toLower⟩

/-- Python's `str.strip()`: drop whitespace from both ends. -/
def pyStrip (s : String) : String :=
  ⟨((s.data.dropWhile Char.isWhitespace).reverse.dropWhile
      Char.isWhitespace).reverse⟩

/-- `label.lower().strip()` applied to each label on line 49. -/
def pyNormLabel (l : String) : String := pyStrip (pyLower l)

/-- `difflib.get_close_matches(word, possibilities, n, cutoff)` with the
similarity `score` abstracted: keep the possibilities whose score against
`word` reaches the cutoff, best matches first, at most `n` of them. -/
def get_close_matches (score : String → String → ℚ) (word : String)
    (possibilities : List String) (n : Nat) (cutoff : ℚ) : List String :=
  ((possibilities.filter (fun x => cutoff ≤ score x word)).mergeSort
    (fun a b => score b word ≤ score a word)).take n

/-- The per-post fuzzy inclusion test of lines 49–51: the keyword occurs
in the space-joined normalised labels, or `get_close_matches` over the
individual normalised labels (n=1, cutoff=0.6) is non-empty. -/
def fuzzyCondition (score : String → String → ℚ) (keyword : String)
    (post : Post) : Bool :=
  let post_labels := post.labels.map pyNormLabel
  pySubstr keyword (String.intercalate " " post_labels)
    || !(get_close_matches score keyword post_labels 1 (0.6 : ℚ)).isEmpty

/-- One step of the dict comprehension `{post['url']: post for ...}`:
Python dict insertion keeps the first occurrence's key position and
overwrites the value (last value wins). -/
def pyDictInsert (m : List (String × Post)) (k : String) (v : Post) :
    List (String × Post) :=
  if m.any (fun kv => kv.1 = k) then
    m.map (fun kv => if kv.1 = k then (kv.1, v) else kv)
  else m ++ [(k, v)]

/-- Line 54: `list({post['url']: post for post in matched_posts}.values())`. -/
def dedupByUrl (posts : List Post) : List Post :=
  (posts.foldl (fun m p => pyDictInsert m p.url p) []).map Prod.snd

/-- `search_blogger_posts(keyword, exact_match)`.  `Except.error msg` is a
Python exception escaping the function: the `except` clause catches only
`requests.exceptions.RequestException` (turned into `[]`), so the
`ValueError` raised on an `"error"` payload in exact mode propagates. -/
def search_blogger_posts (env : Env) (keyword : String)
    (exact_match : Bool) : Except String (List Post) :=
  if exact_match then
    match env.exact keyword with
    | .error _ => .ok []
    | .ok resp =>
      match resp.error with
      | some err => .error (err.message.getD "Blogger API Error")
      | none => .ok (resp.items.getD [])
  else
    match env.allPosts with
    | .error _ => .ok []
    | .ok resp =>
      let all_posts := resp.items.getD []
      let matched_posts := all_posts.filter (fuzzyCondition env.score keyword)
      .ok (dedupByUrl matched_posts)

/-- The inbound message object: the optional `"chat"` context (collapsed
to its `id`) and the optional `"text"` field. -/
structure MsgObj where
  chat : Option Int
  text : Option String
deriving DecidableEq, Repr

/-- The inbound webhook JSON: `update.get("message", update)` uses the
nested `"message"` object when present and otherwise the update itself. -/
structure UpdatePayload where
  message : Option MsgObj
  topLevel : MsgObj
deriving DecidableEq, Repr

/-- What one handler invocation does: the outbound Telegram messages in
send order, and the JSON response body (`status`, optional `message`)
with its HTTP code. -/
structure HandlerOut where
  sent : List (Int × String)
  status : String
  message : Option String
  code : Nat
deriving DecidableEq, Repr

/-- Line 93's item message: `f"📖 *{post['title']}*\n{post['url']}"`. -/
def itemMessage (post : Post) : String :=
  "📖 *" ++ post.title ++ "*\n" ++ post.url

/-- `webhook_handler()` for one inbound update against a fixed remote
world.  Mirrors lines 61–102: parse, 400 on missing chat, prompt on empty
keyword, exact search, fuzzy fallback, header + capped delivery loop, and
the top-level `except Exception` path (at that point `chat_id` is always
in `locals()`) producing the 500 response. -/
def webhook_handler (env : Env) (update : UpdatePayload) : HandlerOut :=
  let message := update.message.getD update.topLevel
  match message.chat with
  | none => ⟨[], "error", some "Invalid message format", 400⟩
  | some chat_id =>
    let keyword := pyLower (pyStrip (message.text.getD ""))
    if keyword = "" then
      ⟨[(chat_id, "ℹ️ Please send a search keyword")], "success", none, 200⟩
    else
      match search_blogger_posts env keyword true with
      | .error e =>
        ⟨[(chat_id, "⚠️ Error: " ++ e)], "error", some e, 500⟩
      | .ok posts =>
        if posts.isEmpty then
          match search_blogger_posts env keyword false with
          | .error e =>
            ⟨[(chat_id, "⚠️ Error: " ++ e)], "error", some e, 500⟩
          | .ok fposts =>
            if fposts.isEmpty then
              ⟨[(chat_id, "❌ No matches found. Try different keywords.")],
                "success", none, 200⟩
            else
              ⟨(chat_id, "🎯 Found " ++ toString fposts.length
                    ++ " related matches:")
                  :: (fposts.take 5).map (fun p => (chat_id, itemMessage p)),
                "success", none, 200⟩
        else
          ⟨(chat_id, "🔍 Found " ++ toString posts.length
                ++ " exact matches:")
              :: (posts.take 5).map (fun p => (chat_id, itemMessage p)),
            "success", none, 200⟩

/-! ### Concrete instances (used to instantiate theorems at real inputs) -/

/-- A small blog: six posts with distinct urls and python-themed labels. -/
def postsW : List Post :=
  [⟨"T1", "u1", ["python"]⟩, ⟨"T2", "u2", ["py"]⟩,
   ⟨"T3", "u3", ["python3"]⟩, ⟨"T4", "u4", ["pythonic"]⟩,
   ⟨"T5", "u5", ["monty python"]⟩, ⟨"T6", "u6", ["snake"]⟩]

/-- A healthy remote world: both Blogger queries succeed with `postsW`,
Telegram accepts every message, every similarity score is `1`. -/
def envW : Env where
  score := fun _ _ => 1
  exact := fun _ => .ok ⟨none, some postsW⟩
  allPosts := .ok ⟨none, some postsW⟩
  telegram := fun _ _ => .status 200

/-- A world whose Blogger queries both return zero items. -/
def envEmptyW : Env where
  score := fun _ _ => 0
  exact := fun _ => .ok ⟨none, some []⟩
  allPosts := .ok ⟨none, some []⟩
  telegram := fun _ _ => .status 200

/-- A world where the exact-match query fails at transport level (e.g. a
timeout) while the unfiltered collection is reachable. -/
def envTimeoutW : Env where
  score := fun _ _ => 1
  exact := fun _ => .error "timeout"
  allPosts := .ok ⟨none, some [⟨"T3", "u3", ["python"]⟩, ⟨"T7", "u3", ["python"]⟩]⟩
  telegram := fun _ _ => .status 200

/-- A world whose exact-match query returns HTTP success carrying an
explicit `"error"` payload. -/
def envErrPayloadW : Env where
  score := fun _ _ => 0
  exact := fun _ => .ok ⟨some ⟨some "boom"⟩, none⟩
  allPosts := .error "x"
  telegram := fun _ _ => .status 200

/-- A world where Telegram answers every send with HTTP 304 (a
non-success status that `raise_for_status` does not treat as an error). -/
def env304W : Env where
  score := fun _ _ => 0
  exact := fun _ => .ok ⟨none, some []⟩
  allPosts := .ok ⟨none, some []⟩
  telegram := fun _ _ => .status 304

/-- An inbound update with chat id 7 and text `" PyThon "`. -/
def updW : UpdatePayload := ⟨some ⟨some 7, some " PyThon "⟩, ⟨none, none⟩⟩

/-- An inbound update whose message object has no `"chat"` field. -/
def updNoChatW : UpdatePayload := ⟨none, ⟨none, some "x"⟩⟩

/-! ### Helper lemmas -/

/-- With `n = 1` (as on line 50), `get_close_matches` returns something
exactly when some possibility reaches the cutoff. -/
theorem get_close_matches_isEmpty_eq_false
    (score : String → String → ℚ) (word : String)
    (possibilities : List String) (cutoff : ℚ) :
    (get_close_matches score word possibilities 1 cutoff).isEmpty = false ↔
      ∃ x ∈ possibilities, cutoff ≤ score x word := by
  rw [List.isEmpty_eq_false]
  unfold get_close_matches
  rw [Ne, List.take_eq_nil_iff]
  constructor
  · intro h
    rcases not_or.mp h with ⟨-, hms⟩
    have hf : possibilities.filter (fun x => decide (cutoff ≤ score x word)) ≠ [] := by
      intro hnil
      exact hms (by rw [hnil]; exact List.mergeSort_nil)
    rcases List.exists_mem_of_ne_nil _ hf with ⟨x, hx⟩
    rcases List.mem_filter.mp hx with ⟨hmem, hsc⟩
    exact ⟨x, hmem, of_decide_eq_true hsc⟩
  · rintro ⟨x, hmem, hsc⟩ h
    rcases h with h | h
    · exact one_ne_zero h
    · have : x ∈ (possibilities.filter
          (fun x => decide (cutoff ≤ score x word))).mergeSort
          (fun a b => decide (score b word ≤ score a word)) :=
        (List.mergeSort_perm _ _).mem_iff.mpr
          (List.mem_filter.mpr ⟨hmem, decide_eq_true hsc⟩)
      rw [h] at this
      exact (List.not_mem_nil x) this

/-- Inserting into the dict model keeps the keys duplicate-free. -/
theorem pyDictInsert_keys_nodup (m : List (String × Post)) (k : String)
    (v : Post) (h : (m.map Prod.fst).Nodup) :
    ((pyDictInsert m k v).map Prod.fst).Nodup := by
  unfold pyDictInsert
  by_cases hk : m.any (fun kv => kv.1 = k) = true
  · rw [if_pos hk, List.map_map]
    have : (Prod.fst ∘ fun kv : String × Post =>
        if kv.1 = k then (kv.1, v) else kv) = Prod.fst := by
      funext kv
      by_cases hkv : kv.1 = k <;> simp [hkv]
    rw [this]
    exact h
  · rw [if_neg hk, List.map_append, List.nodup_append]
    refine ⟨h, List.nodup_singleton k, ?_⟩
    intro a ha hb
    rcases List.mem_map.mp ha with ⟨kv, hkv, rfl⟩
    rcases List.mem_singleton.mp hb with rfl
    exact hk (List.any_eq_true.mpr ⟨kv, hkv, decide_eq_true rfl⟩)

/-- Inserting `(p.url, p)`-shaped bindings keeps every stored value's url
equal to its key. -/
theorem pyDictInsert_url_eq_key (m : List (String × Post)) (k : String)
    (v : Post) (h : ∀ kv ∈ m, (kv.2).url = kv.1) (hv : v.url = k) :
    ∀ kv ∈ pyDictInsert m k v, (kv.2).url = kv.1 := by
  unfold pyDictInsert
  by_cases hk : m.any (fun kv => kv.1 = k) = true
  · rw [if_pos hk]
    intro kv hkv
    rcases List.mem_map.mp hkv with ⟨kv', hkv', rfl⟩
    by_cases hkv1 : kv'.1 = k
    · simp only [if_pos hkv1]
      rw [hv, hkv1]
    · simp only [if_neg hkv1]
      exact h kv' hkv'
  · rw [if_neg hk]
    intro kv hkv
    rcases List.mem_append.mp hkv with hmem | hmem
    · exact h kv hmem
    · rcases List.mem_singleton.mp hmem with rfl
      exact hv

/-- The dict-building fold of `dedupByUrl` preserves both invariants. -/
theorem dedupFold_invariant (posts : List Post) :
    ∀ m : List (String × Post), (m.map Prod.fst).Nodup →
      (∀ kv ∈ m, (kv.2).url = kv.1) →
      (((posts.foldl (fun m p => pyDictInsert m p.url p) m).map
          Prod.fst).Nodup ∧
        ∀ kv ∈ posts.foldl (fun m p => pyDictInsert m p.url p) m,
          (kv.2).url = kv.1) := by
  induction posts with
  | nil => intro m h1 h2; exact ⟨h1, h2⟩
  | cons p ps ih =>
    intro m h1 h2
    exact ih (pyDictInsert m p.url p)
      (pyDictInsert_keys_nodup m p.url p h1)
      (pyDictInsert_url_eq_key m p.url p h2 rfl)

/-- The deduplicated list never holds two posts with the same url. -/
theorem dedupByUrl_pairwise (posts : List Post) :
    (dedupByUrl posts).Pairwise (fun a b => a.url ≠ b.url) := by
  unfold dedupByUrl
  rcases dedupFold_invariant posts [] (by simp) (by simp) with ⟨h1, h2⟩
  rw [List.pairwise_map]
  have hp : (posts.foldl (fun m p => pyDictInsert m p.url p)
      []).Pairwise (fun a b => a.1 ≠ b.1) := List.pairwise_map.mp h1
  refine hp.imp_of_mem ?_
  intro a b ha hb hne
  rw [h2 a ha, h2 b hb]
  exact hne

/-! ### Claim theorems -/

/-- C6: for every inbound payload whose message object has no `"chat"`
field, the handler answers HTTP 400 with an error status and sends zero
outbound notifications. -/
theorem c6_missing_chat (env : Env) (u : UpdatePayload)
    (h : (u.message.getD u.topLevel).chat = none) :
    webhook_handler env u =
      ⟨[], "error", some "Invalid message format", 400⟩ := by
  simp only [webhook_handler, h]

/-- C6 witness: the missing-chat update gets the 400 answer and no sends. -/
theorem c6_missing_chat_witness :
    (updNoChatW.message.getD updNoChatW.topLevel).chat = none ∧
    webhook_handler envW updNoChatW =
      ⟨[], "error", some "Invalid message format", 400⟩ :=
  ⟨rfl, c6_missing_chat envW updNoChatW rfl⟩

/-- C9: the handler is deterministic in the inbound payload and the
remote responses — the same payload against the same remote world yields
the same sequence of outbound notifications. -/
theorem c9_deterministic (env : Env) (u u' : UpdatePayload) (h : u = u') :
    (webhook_handler env u).sent = (webhook_handler env u').sent := by
  rw [h]

/-- C9 witness: two invocations on the identical concrete payload. -/
theorem c9_deterministic_witness :
    updW = updW ∧
    (webhook_handler envW updW).sent = (webhook_handler envW updW).sent :=
  ⟨rfl, c9_deterministic envW updW updW rfl⟩

/-- C8 counterexample: the claim "any non-success HTTP status of the
send-message call makes notify return false" fails at status 304:
`raise_for_status` only raises for 4xx/5xx, so `send_to_telegram`
returns true on the non-success status 304. -/
theorem c8_counterexample :
    ¬ ∀ (env : Env) (chat_id : Int) (text : String) (s : Nat),
        env.telegram chat_id text = .status s → ¬(200 ≤ s ∧ s < 300) →
        send_to_telegram env chat_id text = false := by
  intro h
  exact absurd (h env304W 1 "hi" 304 rfl (by decide)) (by decide)

/-- C8 (amended): notify always returns a boolean, never raising: it
returns false exactly on a transport failure or an HTTP status in
`[400, 600)` (what `raise_for_status` raises on), and true otherwise —
including 2xx success but also 1xx/3xx statuses. -/
theorem c8_notify_result (env : Env) (chat_id : Int) (text : String) :
    send_to_telegram env chat_id text = false ↔
      (∃ e, env.telegram chat_id text = .transportErr e) ∨
      (∃ s, env.telegram chat_id text = .status s ∧ 400 ≤ s ∧ s < 600) := by
  unfold send_to_telegram
  cases h : env.telegram chat_id text with
  | transportErr e => simp [h]
  | status c =>
    by_cases hc : 400 ≤ c ∧ c < 600
    · simp [h, hc]
    · simp only [h, if_neg hc]
      constructor
      · intro hcontra
        exact absurd hcontra (by decide)
      · rintro (⟨e, he⟩ | ⟨s, hs, h4, h6⟩)
        · exact absurd he (by simp)
        · rw [TgResult.status.injEq] at hs
          exact absurd ⟨hs ▸ h4, hs ▸ h6⟩ hc

/-- C1 counterexample: an `"error"` payload in a successful exact-mode
response does **not** make search return the empty sequence — the raised
`ValueError` escapes `search_blogger_posts` (its `except` clause catches
only `RequestException`) and reaches the request handler, which answers
500 and sends an error notification instead. -/
theorem c1_counterexample :
    search_blogger_posts envErrPayloadW "python" true = .error "boom" ∧
    search_blogger_posts envErrPayloadW "python" true ≠ .ok [] ∧
    webhook_handler envErrPayloadW updW =
      ⟨[(7, "⚠️ Error: boom")], "error", some "boom", 500⟩ := by
  have hs : search_blogger_posts envErrPayloadW "python" true =
      .error "boom" := rfl
  refine ⟨hs, ?_, rfl⟩
  rw [hs]
  intro hcontra
  exact Except.noConfusion hcontra

/-- C1 (amended): an `"error"` payload despite HTTP success in exact mode
raises a `ValueError` that propagates out of search (only transport
failures are converted to the empty sequence); the handler's top-level
catch turns it into one error notification to the chat and an HTTP 500
error response. -/
theorem c1_error_payload (env : Env) (u : UpdatePayload) (cid : Int)
    (resp : BloggerResp) (err : BloggerError) (kw : String)
    (hm : (u.message.getD u.topLevel).chat = some cid)
    (hk : kw = pyLower (pyStrip ((u.message.getD u.topLevel).text.getD "")))
    (hne : kw ≠ "")
    (hresp : env.exact kw = .ok resp)
    (herr : resp.error = some err) :
    search_blogger_posts env kw true =
      .error (err.message.getD "Blogger API Error") ∧
    webhook_handler env u =
      ⟨[(cid, "⚠️ Error: " ++ err.message.getD "Blogger API Error")],
        "error", some (err.message.getD "Blogger API Error"), 500⟩ := by
  have hs : search_blogger_posts env kw true =
      .error (err.message.getD "Blogger API Error") := by
    simp [search_blogger_posts, hresp, herr]
  refine ⟨hs, ?_⟩
  simp only [webhook_handler, hm, ← hk, if_neg hne, hs]

/-- C1 witness: the amended behaviour at the concrete error-payload
world. -/
theorem c1_error_payload_witness :
    envErrPayloadW.exact "python" = .ok ⟨some ⟨some "boom"⟩, none⟩ ∧
    "python" ≠ "" ∧
    webhook_handler envErrPayloadW updW =
      ⟨[(7, "⚠️ Error: boom")], "error", some "boom", 500⟩ :=
  ⟨rfl, by decide,
    (c1_error_payload envErrPayloadW updW 7 ⟨some ⟨some "boom"⟩, none⟩
      ⟨some "boom"⟩ "python" rfl (by decide) (by decide) rfl rfl).2⟩

/-- Handler path lemma: exact search found posts — header then up to five
item messages. -/
theorem webhook_handler_exact_found (env : Env) (u : UpdatePayload)
    (cid : Int) (kw : String) (posts : List Post)
    (hm : (u.message.getD u.topLevel).chat = some cid)
    (hk : kw = pyLower (pyStrip ((u.message.getD u.topLevel).text.getD "")))
    (hne : kw ≠ "")
    (hs : search_blogger_posts env kw true = .ok posts)
    (hne' : posts ≠ []) :
    webhook_handler env u =
      ⟨(cid, "🔍 Found " ++ toString posts.length ++ " exact matches:")
          :: (posts.take 5).map (fun p => (cid, itemMessage p)),
        "success", none, 200⟩ := by
  simp only [webhook_handler, hm, ← hk, if_neg hne, hs]
  rw [if_neg (by simp [List.isEmpty_iff, hne'])]

/-- Handler path lemma: exact search empty, fuzzy search found posts. -/
theorem webhook_handler_fuzzy_found (env : Env) (u : UpdatePayload)
    (cid : Int) (kw : String) (fposts : List Post)
    (hm : (u.message.getD u.topLevel).chat = some cid)
    (hk : kw = pyLower (pyStrip ((u.message.getD u.topLevel).text.getD "")))
    (hne : kw ≠ "")
    (hs : search_blogger_posts env kw true = .ok [])
    (hsf : search_blogger_posts env kw false = .ok fposts)
    (hne' : fposts ≠ []) :
    webhook_handler env u =
      ⟨(cid, "🎯 Found " ++ toString fposts.length ++ " related matches:")
          :: (fposts.take 5).map (fun p => (cid, itemMessage p)),
        "success", none, 200⟩ := by
  simp only [webhook_handler, hm, ← hk, if_neg hne, hs, hsf,
    List.isEmpty_nil, if_true]
  rw [if_neg (by simp [List.isEmpty_iff, hne'])]

/-- Handler path lemma: both searches empty — single no-match message. -/
theorem webhook_handler_no_match (env : Env) (u : UpdatePayload)
    (cid : Int) (kw : String)
    (hm : (u.message.getD u.topLevel).chat = some cid)
    (hk : kw = pyLower (pyStrip ((u.message.getD u.topLevel).text.getD "")))
    (hne : kw ≠ "")
    (hs : search_blogger_posts env kw true = .ok [])
    (hsf : search_blogger_posts env kw false = .ok []) :
    webhook_handler env u =
      ⟨[(cid, "❌ No matches found. Try different keywords.")],
        "success", none, 200⟩ := by
  simp only [webhook_handler, hm, ← hk, if_neg hne, hs, hsf,
    List.isEmpty_nil, if_true]

/-- C2: every transport-level failure (e.g. a timeout) contacting the
remote content API — the exact-mode label-filtered query as well as the
fuzzy-mode unfiltered fetch — makes search return the empty sequence
instead of raising; in particular, when the exact-mode call fails the
handler observes zero exact matches and attempts the fuzzy-mode search,
whose outcome alone determines the response. -/
theorem c2_transport_failure_degrades (env : Env) (u : UpdatePayload)
    (cid : Int) (kw e : String)
    (hm : (u.message.getD u.topLevel).chat = some cid)
    (hk : kw = pyLower (pyStrip ((u.message.getD u.topLevel).text.getD "")))
    (hne : kw ≠ "")
    (hfail : env.exact kw = .error e) :
    (∀ (env' : Env) (kw' e' : String), env'.exact kw' = .error e' →
      search_blogger_posts env' kw' true = .ok []) ∧
    (∀ (env' : Env) (kw' e' : String), env'.allPosts = .error e' →
      search_blogger_posts env' kw' false = .ok []) ∧
    search_blogger_posts env kw true = .ok [] ∧
    webhook_handler env u =
      (match search_blogger_posts env kw false with
        | .error e' => ⟨[(cid, "⚠️ Error: " ++ e')], "error", some e', 500⟩
        | .ok fposts =>
          if fposts.isEmpty then
            ⟨[(cid, "❌ No matches found. Try different keywords.")],
              "success", none, 200⟩
          else
            ⟨(cid, "🎯 Found " ++ toString fposts.length
                  ++ " related matches:")
                :: (fposts.take 5).map (fun p => (cid, itemMessage p)),
              "success", none, 200⟩) := by
  have hs : search_blogger_posts env kw true = .ok [] := by
    simp [search_blogger_posts, hfail]
  refine ⟨?_, ?_, hs, ?_⟩
  · intro env' kw' e' h
    simp [search_blogger_posts, h]
  · intro env' kw' e' h
    simp [search_blogger_posts, h]
  · simp only [webhook_handler, hm, ← hk, if_neg hne, hs,
      List.isEmpty_nil, if_true]

/-- C2 witness: a concrete timeout of the exact query falls back to the
fuzzy search over the unfiltered collection, and a concrete transport
failure of the unfiltered fetch makes the fuzzy search return empty. -/
theorem c2_transport_failure_degrades_witness :
    envTimeoutW.exact "python" = .error "timeout" ∧
    envErrPayloadW.allPosts = .error "x" ∧
    "python" ≠ "" ∧
    search_blogger_posts envTimeoutW "python" true = .ok [] ∧
    search_blogger_posts envErrPayloadW "python" false = .ok [] ∧
    webhook_handler envTimeoutW updW =
      (match search_blogger_posts envTimeoutW "python" false with
        | .error e' => ⟨[(7, "⚠️ Error: " ++ e')], "error", some e', 500⟩
        | .ok fposts =>
          if fposts.isEmpty then
            ⟨[(7, "❌ No matches found. Try different keywords.")],
              "success", none, 200⟩
          else
            ⟨(7, "🎯 Found " ++ toString fposts.length
                  ++ " related matches:")
                :: (fposts.take 5).map (fun p => (7, itemMessage p)),
              "success", none, 200⟩) :=
  ⟨rfl, rfl, by decide,
    (c2_transport_failure_degrades envTimeoutW updW 7 "python" "timeout"
      rfl (by decide) (by decide) rfl).2.2.1,
    (c2_transport_failure_degrades envTimeoutW updW 7 "python" "timeout"
      rfl (by decide) (by decide) rfl).2.1 envErrPayloadW "python" "x" rfl,
    (c2_transport_failure_degrades envTimeoutW updW 7 "python" "timeout"
      rfl (by decide) (by decide) rfl).2.2.2⟩

/-- C7: when the exact search and the fuzzy search both yield zero items,
the handler sends exactly one "no matches" notification, no item
messages, and answers HTTP 200 with a success status. -/
theorem c7_no_matches_single_notification (env : Env) (u : UpdatePayload)
    (cid : Int) (kw : String)
    (hm : (u.message.getD u.topLevel).chat = some cid)
    (hk : kw = pyLower (pyStrip ((u.message.getD u.topLevel).text.getD "")))
    (hne : kw ≠ "")
    (hs : search_blogger_posts env kw true = .ok [])
    (hsf : search_blogger_posts env kw false = .ok []) :
    webhook_handler env u =
      ⟨[(cid, "❌ No matches found. Try different keywords.")],
        "success", none, 200⟩ :=
  webhook_handler_no_match env u cid kw hm hk hne hs hsf

/-- C7 witness: the empty blog produces the single no-match message. -/
theorem c7_no_matches_single_notification_witness :
    search_blogger_posts envEmptyW "python" true = .ok [] ∧
    search_blogger_posts envEmptyW "python" false = .ok [] ∧
    webhook_handler envEmptyW updW =
      ⟨[(7, "❌ No matches found. Try different keywords.")],
        "success", none, 200⟩ :=
  ⟨rfl, rfl,
    c7_no_matches_single_notification envEmptyW updW 7 "python"
      rfl (by decide) (by decide) rfl rfl⟩

/-- C5: whenever a (non-empty) search result set is delivered, the sent
sequence is the count header followed by the item messages of the first
five results, each formatted as title plus url, in the search output's
order — so at most 5 item notifications per invocation. -/
theorem c5_capped_ordered_delivery (env : Env) (u : UpdatePayload)
    (cid : Int) (kw : String)
    (hm : (u.message.getD u.topLevel).chat = some cid)
    (hk : kw = pyLower (pyStrip ((u.message.getD u.topLevel).text.getD "")))
    (hne : kw ≠ "") :
    (∀ posts, search_blogger_posts env kw true = .ok posts → posts ≠ [] →
      webhook_handler env u =
        ⟨(cid, "🔍 Found " ++ toString posts.length ++ " exact matches:")
            :: (posts.take 5).map (fun p => (cid, itemMessage p)),
          "success", none, 200⟩ ∧
      ((posts.take 5).map (fun p => (cid, itemMessage p))).length ≤ 5) ∧
    (∀ fposts, search_blogger_posts env kw true = .ok [] →
      search_blogger_posts env kw false = .ok fposts → fposts ≠ [] →
      webhook_handler env u =
        ⟨(cid, "🎯 Found " ++ toString fposts.length ++ " related matches:")
            :: (fposts.take 5).map (fun p => (cid, itemMessage p)),
          "success", none, 200⟩ ∧
      ((fposts.take 5).map (fun p => (cid, itemMessage p))).length ≤ 5) := by
  constructor
  · intro posts hs hne'
    refine ⟨webhook_handler_exact_found env u cid kw posts hm hk hne hs hne', ?_⟩
    rw [List.length_map, List.length_take]
    omega
  · intro fposts hs hsf hne'
    refine ⟨webhook_handler_fuzzy_found env u cid kw fposts hm hk hne hs hsf hne', ?_⟩
    rw [List.length_map, List.length_take]
    omega

/-- C5 witness: six exact matches produce the header plus exactly five
item messages, in order. -/
theorem c5_capped_ordered_delivery_witness :
    "python" ≠ "" ∧
    postsW ≠ [] ∧
    webhook_handler envW updW =
      ⟨(7, "🔍 Found " ++ toString postsW.length ++ " exact matches:")
          :: (postsW.take 5).map (fun p => (7, itemMessage p)),
        "success", none, 200⟩ ∧
    ((postsW.take 5).map (fun p => (7, itemMessage p))).length ≤ 5 :=
  ⟨by decide, by decide,
    ((c5_capped_ordered_delivery envW updW 7 "python" rfl (by decide)
        (by decide)).1 postsW rfl (by decide)).1,
    ((c5_capped_ordered_delivery envW updW 7 "python" rfl (by decide)
        (by decide)).1 postsW rfl (by decide)).2⟩

/-- C10: the count in the header message is the length of the full result
set before the 5-item delivery cap, so with more than five matches the
announced count strictly exceeds the number of item messages sent. -/
theorem c10_header_announces_full_count (env : Env) (u : UpdatePayload)
    (cid : Int) (kw : String)
    (hm : (u.message.getD u.topLevel).chat = some cid)
    (hk : kw = pyLower (pyStrip ((u.message.getD u.topLevel).text.getD "")))
    (hne : kw ≠ "") :
    (∀ posts, search_blogger_posts env kw true = .ok posts → posts ≠ [] →
      (webhook_handler env u).sent.head? =
        some (cid, "🔍 Found " ++ toString posts.length ++ " exact matches:") ∧
      (webhook_handler env u).sent.tail.length = min 5 posts.length ∧
      (5 < posts.length →
        (webhook_handler env u).sent.tail.length = 5 ∧
        (webhook_handler env u).sent.tail.length < posts.length)) ∧
    (∀ fposts, search_blogger_posts env kw true = .ok [] →
      search_blogger_posts env kw false = .ok fposts → fposts ≠ [] →
      (webhook_handler env u).sent.head? =
        some (cid, "🎯 Found " ++ toString fposts.length ++ " related matches:") ∧
      (webhook_handler env u).sent.tail.length = min 5 fposts.length ∧
      (5 < fposts.length →
        (webhook_handler env u).sent.tail.length = 5 ∧
        (webhook_handler env u).sent.tail.length < fposts.length)) := by
  constructor
  · intro posts hs hne'
    rw [webhook_handler_exact_found env u cid kw posts hm hk hne hs hne']
    simp only [List.head?_cons, List.tail_cons, List.length_map,
      List.length_take]
    refine ⟨trivial, trivial, fun h5 => ?_⟩
    omega
  · intro fposts hs hsf hne'
    rw [webhook_handler_fuzzy_found env u cid kw fposts hm hk hne hs hsf hne']
    simp only [List.head?_cons, List.tail_cons, List.length_map,
      List.length_take]
    refine ⟨trivial, trivial, fun h5 => ?_⟩
    omega

/-- C10 witness: six exact matches — header announces 6, five items go
out. -/
theorem c10_header_announces_full_count_witness :
    "python" ≠ "" ∧
    postsW ≠ [] ∧
    5 < postsW.length ∧
    (webhook_handler envW updW).sent.head? =
      some (7, "🔍 Found " ++ toString postsW.length ++ " exact matches:") ∧
    (webhook_handler envW updW).sent.tail.length = 5 ∧
    (webhook_handler envW updW).sent.tail.length < postsW.length :=
  ⟨by decide, by decide, by decide,
    ((c10_header_announces_full_count envW updW 7 "python" rfl (by decide)
        (by decide)).1 postsW rfl (by decide)).1,
    (((c10_header_announces_full_count envW updW 7 "python" rfl (by decide)
        (by decide)).1 postsW rfl (by decide)).2.2 (by decide)).1,
    (((c10_header_announces_full_count envW updW 7 "python" rfl (by decide)
        (by decide)).1 postsW rfl (by decide)).2.2 (by decide)).2⟩

/-- C3: in fuzzy mode a fetched item enters the match set exactly when
the keyword is a substring of the space-joined lower-cased trimmed labels
or some individual lower-cased trimmed label scores at least 0.6 against
the keyword; the search result is that match set deduplicated by url. -/
theorem c3_fuzzy_inclusion_iff (env : Env) (kw : String)
    (resp : BloggerResp) (post : Post)
    (hresp : env.allPosts = .ok resp) (_hne : kw ≠ "") :
    search_blogger_posts env kw false =
      .ok (dedupByUrl
        ((resp.items.getD []).filter (fuzzyCondition env.score kw))) ∧
    (post ∈ (resp.items.getD []).filter (fuzzyCondition env.score kw) ↔
      post ∈ resp.items.getD [] ∧
        (kw.toList <:+:
            (String.intercalate " " (post.labels.map pyNormLabel)).toList ∨
          ∃ l ∈ post.labels.map pyNormLabel, (0.6 : ℚ) ≤ env.score l kw)) := by
  constructor
  · simp [search_blogger_posts, hresp]
  · rw [List.mem_filter]
    refine and_congr_right fun _ => ?_
    unfold fuzzyCondition
    rw [Bool.or_eq_true, Bool.not_eq_true',
      get_close_matches_isEmpty_eq_false]
    unfold pySubstr
    rw [decide_eq_true_iff]

/-- C3 witness: a post labelled `"python"` is in the concrete match set
via both disjuncts. -/
theorem c3_fuzzy_inclusion_iff_witness :
    envW.allPosts = .ok ⟨none, some postsW⟩ ∧
    "python" ≠ "" ∧
    (search_blogger_posts envW "python" false =
      .ok (dedupByUrl
        ((postsW : List Post).filter (fuzzyCondition envW.score "python"))) ∧
    ((⟨"T1", "u1", ["python"]⟩ : Post) ∈
        (postsW : List Post).filter (fuzzyCondition envW.score "python") ↔
      (⟨"T1", "u1", ["python"]⟩ : Post) ∈ (postsW : List Post) ∧
        ("python".toList <:+:
            (String.intercalate " "
              ((["python"] : List String).map pyNormLabel)).toList ∨
          ∃ l ∈ (["python"] : List String).map pyNormLabel,
            (0.6 : ℚ) ≤ envW.score l "python"))) :=
  ⟨rfl, by decide,
    c3_fuzzy_inclusion_iff envW "python" ⟨none, some postsW⟩
      ⟨"T1", "u1", ["python"]⟩ rfl (by decide)⟩

/-- C4: every fuzzy-mode search result list is deduplicated by url — no
two returned items (and hence no two of the at most five delivered items)
share a url. -/
theorem c4_fuzzy_urls_unique (env : Env) (kw : String) (l : List Post)
    (h : search_blogger_posts env kw false = .ok l) :
    l.Pairwise (fun a b => a.url ≠ b.url) ∧
    (l.take 5).Pairwise (fun a b => a.url ≠ b.url) := by
  have hl : l.Pairwise (fun a b => a.url ≠ b.url) := by
    unfold search_blogger_posts at h
    cases he : env.allPosts with
    | error e =>
      rw [he] at h
      simp only [Bool.false_eq_true, if_false, Except.ok.injEq] at h
      rw [← h]
      exact List.Pairwise.nil
    | ok resp =>
      rw [he] at h
      simp only [Bool.false_eq_true, if_false, Except.ok.injEq] at h
      rw [← h]
      exact dedupByUrl_pairwise _
  exact ⟨hl, List.Pairwise.sublist (List.take_sublist 5 l) hl⟩

/-- C4 witness: two fuzzy matches with the same url collapse to one
result. -/
theorem c4_fuzzy_urls_unique_witness :
    search_blogger_posts envTimeoutW "python" false =
      .ok [⟨"T7", "u3", ["python"]⟩] ∧
    ([(⟨"T7", "u3", ["python"]⟩ : Post)].Pairwise
      (fun a b => a.url ≠ b.url) ∧
    ([(⟨"T7", "u3", ["python"]⟩ : Post)].take 5).Pairwise
      (fun a b => a.url ≠ b.url)) :=
  ⟨rfl, c4_fuzzy_urls_unique envTimeoutW "python"
    [⟨"T7", "u3", ["python"]⟩] rfl⟩
